import Mathlib

set_option linter.unusedVariables false
set_option linter.unnecessarySeqFocus false

/-!
Shallow embedding of `src/app.py` (CBB Edge Finder Proxy).

The process state is the module-level `usage_data = {"daily": {}, "monthly": {}}`,
two Python dicts mapping date-derived string keys to integer counts.  Dicts are
modelled as association lists of (key, value) pairs; `dictGet` models
`d.get(k)` returning `None` when absent, `dictGetD` models `d.get(k, 0)`, and
`dictSet` models `d[k] = v` (replacing the entry when the key is present,
appending it otherwise — Python dict keys are unique).  Counts are `Int`
because Python integers are unbounded and signed.

The clock (`date.today()`) is modelled as an explicit `Date` argument threaded
into every operation that reads it, as the spec's injectable Clock Source.
Python's `date` has year in 1..9999, month in 1..12, day in 1..31; `Date.Valid`
records those bounds.  `date.isoformat()` renders "YYYY-MM-DD" with zero
padding and `strftime("%Y-%m")` renders "YYYY-MM"; for valid dates both are
fixed-width, which `pad4`/`pad2` reproduce digit by digit.

Endpoint handlers are pure functions of the configuration (the credential
strings), the clock, the outcome the upstream HTTP call would produce, and the
ledger state; they return the HTTP response, the new ledger state, and the
number of outbound network calls performed.
-/

def pad2 (n : Nat) : List Char :=
  [Nat.digitChar (n / 10 % 10), Nat.digitChar (n % 10)]

def pad4 (n : Nat) : List Char :=
  [Nat.digitChar (n / 1000 % 10), Nat.digitChar (n / 100 % 10),
   Nat.digitChar (n / 10 % 10), Nat.digitChar (n % 10)]

structure Date where
  year : Nat
  month : Nat
  day : Nat
deriving DecidableEq

/-- The constraints Python's `datetime.date` enforces on its fields
(MINYEAR = 1, MAXYEAR = 9999; the real day bound depends on the month, 31 is
an upper bound sufficient here). -/
def Date.Valid (d : Date) : Prop :=
  1 ≤ d.year ∧ d.year ≤ 9999 ∧ 1 ≤ d.month ∧ d.month ≤ 12 ∧ 1 ≤ d.day ∧ d.day ≤ 31

instance (d : Date) : Decidable d.Valid := by
  unfold Date.Valid; infer_instance

/-- `get_today_key`: `date.today().isoformat()`, i.e. "YYYY-MM-DD". -/
def get_today_key (now : Date) : String :=
  String.mk (pad4 now.year ++ '-' :: (pad2 now.month ++ '-' :: pad2 now.day))

/-- `get_month_key`: `date.today().strftime("%Y-%m")`, i.e. "YYYY-MM". -/
def get_month_key (now : Date) : String :=
  String.mk (pad4 now.year ++ '-' :: pad2 now.month)

abbrev Dict := List (String × Int)

/-- Python `d.get(k)`: value of the (unique) entry for `k`, `none` if absent. -/
def dictGet : Dict → String → Option Int
  | [], _ => none
  | (k', v) :: rest, k => if k' = k then some v else dictGet rest k

/-- Python `d.get(k, 0)`. -/
def dictGetD (d : Dict) (k : String) : Int :=
  (dictGet d k).getD 0

/-- Python `d[k] = v`: replace the entry for `k` when present, append otherwise. -/
def dictSet : Dict → String → Int → Dict
  | [], k, v => [(k, v)]
  | (k', v') :: rest, k, v =>
      if k' = k then (k, v) :: rest else (k', v') :: dictSet rest k v

/-- `usage_data = {"daily": {}, "monthly": {}}`. -/
structure UsageData where
  daily : Dict
  monthly : Dict
deriving DecidableEq

/-- The initial, empty ledger created at process start. -/
def usage_data_init : UsageData := ⟨[], []⟩

/-- `DAILY_LIMIT = 100`. -/
def DAILY_LIMIT : Int := 100

/-- The JSON object `get_usage_stats` returns. -/
structure UsageSnapshot where
  today : Int
  todayRemaining : Int
  month : Int
  dailyLimit : Int
deriving DecidableEq

/-- `get_usage_stats()`, with the clock reading passed explicitly. -/
def get_usage_stats (now : Date) (u : UsageData) : UsageSnapshot :=
  let today := get_today_key now
  let month := get_month_key now
  let today_count := dictGetD u.daily today
  let month_count := dictGetD u.monthly month
  { today := today_count
    todayRemaining := max 0 (DAILY_LIMIT - today_count)
    month := month_count
    dailyLimit := DAILY_LIMIT }

/-- `increment_usage()`: mutates both dicts, then returns `get_usage_stats()`.
Returned here as (new state, returned snapshot). -/
def increment_usage (now : Date) (u : UsageData) : UsageData × UsageSnapshot :=
  let today := get_today_key now
  let month := get_month_key now
  let u' : UsageData :=
    { daily := dictSet u.daily today (dictGetD u.daily today + 1)
      monthly := dictSet u.monthly month (dictGetD u.monthly month + 1) }
  (u', get_usage_stats now u')

/-- `N` successive `increment_usage` calls under the same clock reading. -/
def incrementN (now : Date) (u : UsageData) : Nat → UsageData
  | 0 => u
  | n + 1 => (increment_usage now (incrementN now u n)).1

/-- Outcome of the one outbound `requests.get` a handler performs:
HTTP 200 with a (parseable) body, a non-200 status with a parseable JSON body,
or a raised exception (network error, timeout, ...) carrying `str(e)`. -/
inductive Upstream where
  | ok (body : String)
  | err (code : Nat) (body : String)
  | exn (msg : String)
deriving DecidableEq

/-- A response body: opaque upstream JSON passed through by `jsonify(response.json())`,
an error object `jsonify` built from a message string, or a usage snapshot. -/
inductive Body where
  | upstream (b : String)
  | errorObj (msg : String)
  | snapshot (s : UsageSnapshot)
deriving DecidableEq

/-- A Flask response: JSON body plus HTTP status code (200 when unspecified). -/
structure Response where
  body : Body
  status : Nat
deriving DecidableEq

/-- `/api/usage` handler: `jsonify(get_usage_stats())`.  The source reads the
dicts and never assigns, so the state component is returned untouched. -/
def usage (now : Date) (u : UsageData) : Response × UsageData :=
  ({ body := Body.snapshot (get_usage_stats now u), status := 200 }, u)

/-- `/api/odds` handler.  Third component counts outbound network calls. -/
def get_odds (ODDS_API_KEY : String) (upstream : Upstream) (u : UsageData) :
    Response × UsageData × Nat :=
  if ODDS_API_KEY = "" then
    ({ body := Body.errorObj "ODDS_API_KEY not configured", status := 500 }, u, 0)
  else
    match upstream with
    | Upstream.ok b => ({ body := Body.upstream b, status := 200 }, u, 1)
    | Upstream.err code b => ({ body := Body.upstream b, status := code }, u, 1)
    | Upstream.exn m => ({ body := Body.errorObj m, status := 500 }, u, 1)

/-- `/api/ratings` handler.  `season` only enters the upstream URL parameters,
which the embedding does not model beyond the call count. -/
def get_ratings (CBBD_API_KEY season : String) (now : Date) (upstream : Upstream)
    (u : UsageData) : Response × UsageData × Nat :=
  if CBBD_API_KEY = "" then
    ({ body := Body.errorObj "CBBD_API_KEY not configured", status := 500 }, u, 0)
  else
    match upstream with
    | Upstream.ok b =>
        let r := increment_usage now u
        ({ body := Body.upstream b, status := 200 }, r.1, 1)
    | Upstream.err code _ =>
        ({ body := Body.errorObj ("API returned " ++ toString code), status := code }, u, 1)
    | Upstream.exn m => ({ body := Body.errorObj m, status := 500 }, u, 1)

/-- `/api/games` handler (identical control flow to `/api/ratings`). -/
def get_games (CBBD_API_KEY season : String) (now : Date) (upstream : Upstream)
    (u : UsageData) : Response × UsageData × Nat :=
  if CBBD_API_KEY = "" then
    ({ body := Body.errorObj "CBBD_API_KEY not configured", status := 500 }, u, 0)
  else
    match upstream with
    | Upstream.ok b =>
        let r := increment_usage now u
        ({ body := Body.upstream b, status := 200 }, r.1, 1)
    | Upstream.err code _ =>
        ({ body := Body.errorObj ("API returned " ++ toString code), status := code }, u, 1)
    | Upstream.exn m => ({ body := Body.errorObj m, status := 500 }, u, 1)

/-- `/api/teams` handler (no `season` parameter). -/
def get_teams (CBBD_API_KEY : String) (now : Date) (upstream : Upstream)
    (u : UsageData) : Response × UsageData × Nat :=
  if CBBD_API_KEY = "" then
    ({ body := Body.errorObj "CBBD_API_KEY not configured", status := 500 }, u, 0)
  else
    match upstream with
    | Upstream.ok b =>
        let r := increment_usage now u
        ({ body := Body.upstream b, status := 200 }, r.1, 1)
    | Upstream.err code _ =>
        ({ body := Body.errorObj ("API returned " ++ toString code), status := code }, u, 1)
    | Upstream.exn m => ({ body := Body.errorObj m, status := 500 }, u, 1)

/-- The month key "YYYY-MM" is the first seven characters of the day key
"YYYY-MM-DD". -/
def monthOfDayKey (k : String) : String :=
  String.mk (k.data.take 7)

/-- Sum of the daily counts over the day-keys belonging to month `M`. -/
def sumInMonth : Dict → String → Int
  | [], _ => 0
  | (k, v) :: rest, M =>
      (if monthOfDayKey k = M then v else 0) + sumInMonth rest M

/-- Ledger reached from the empty ledger by one `increment_usage` per listed
clock reading, in order. -/
def runTrace (ts : List Date) : UsageData :=
  ts.foldl (fun u d => (increment_usage d u).1) usage_data_init

/-! ### Dictionary lemmas -/

theorem dictGet_set_self (d : Dict) (k : String) (v : Int) :
    dictGet (dictSet d k v) k = some v := by
  induction d with
  | nil => simp [dictSet, dictGet]
  | cons hd tl ih =>
      obtain ⟨k', v'⟩ := hd
      by_cases h : k' = k <;> simp [dictSet, dictGet, h, ih]

theorem dictGet_set_ne (d : Dict) (k k' : String) (v : Int) (h : k' ≠ k) :
    dictGet (dictSet d k v) k' = dictGet d k' := by
  induction d with
  | nil => simp [dictSet, dictGet, Ne.symm h]
  | cons hd tl ih =>
      obtain ⟨k₀, v₀⟩ := hd
      by_cases h₀ : k₀ = k
      · subst h₀
        simp [dictSet, dictGet, Ne.symm h]
      · simp [dictSet, dictGet, h₀, ih]

theorem dictGetD_set_self (d : Dict) (k : String) (v : Int) :
    dictGetD (dictSet d k v) k = v := by
  simp [dictGetD, dictGet_set_self]

theorem dictGetD_set_ne (d : Dict) (k k' : String) (v : Int) (h : k' ≠ k) :
    dictGetD (dictSet d k v) k' = dictGetD d k' := by
  simp [dictGetD, dictGet_set_ne d k k' v h]

theorem mem_dictSet (d : Dict) (k : String) (v : Int) (kv : String × Int)
    (h : kv ∈ dictSet d k v) : kv ∈ d ∨ kv = (k, v) := by
  induction d with
  | nil => simp [dictSet] at h; simp [h]
  | cons hd tl ih =>
      obtain ⟨k₀, v₀⟩ := hd
      by_cases h₀ : k₀ = k
      · simp [dictSet, h₀] at h
        rcases h with h | h
        · right; simp [h]
        · left; simp [h]
      · simp [dictSet, h₀] at h
        rcases h with h | h
        · left; simp [h]
        · rcases ih h with h' | h'
          · left; simp [h']
          · right; exact h'

theorem dictGetD_eq_zero_of_get_none (d : Dict) (k : String)
    (h : dictGet d k = none) : dictGetD d k = 0 := by
  simp [dictGetD, h]

theorem dictGetD_nonneg (d : Dict) (k : String) (h : ∀ kv ∈ d, 1 ≤ kv.2) :
    0 ≤ dictGetD d k := by
  induction d with
  | nil => simp [dictGetD, dictGet]
  | cons hd tl ih =>
      obtain ⟨k₀, v₀⟩ := hd
      by_cases h₀ : k₀ = k
      · subst h₀
        have h₁ : (1 : Int) ≤ v₀ := h (k₀, v₀) (by simp)
        simp [dictGetD, dictGet]
        omega
      · simp only [dictGetD, dictGet, if_neg h₀]
        exact ih (fun kv hkv => h kv (by simp [hkv]))

/-! ### Date-key lemmas -/

theorem digitChar_inj :
    ∀ a, a < 10 → ∀ b, b < 10 → Nat.digitChar a = Nat.digitChar b → a = b := by
  decide

theorem get_today_key_inj (d d' : Date) (hd : d.Valid) (hd' : d'.Valid)
    (h : get_today_key d = get_today_key d') : d = d' := by
  obtain ⟨hy1, hy2, hm1, hm2, hdy1, hdy2⟩ := hd
  obtain ⟨hy1', hy2', hm1', hm2', hdy1', hdy2'⟩ := hd'
  replace h := congrArg String.data h
  simp only [get_today_key, pad4, pad2, List.cons_append, List.nil_append,
    List.cons.injEq, and_true, true_and] at h
  obtain ⟨e1, e2, e3, e4, e5, e6, e7, e8⟩ := h
  have g1 := digitChar_inj _ (by omega) _ (by omega) e1
  have g2 := digitChar_inj _ (by omega) _ (by omega) e2
  have g3 := digitChar_inj _ (by omega) _ (by omega) e3
  have g4 := digitChar_inj _ (by omega) _ (by omega) e4
  have g5 := digitChar_inj _ (by omega) _ (by omega) e5
  have g6 := digitChar_inj _ (by omega) _ (by omega) e6
  have g7 := digitChar_inj _ (by omega) _ (by omega) e7
  have g8 := digitChar_inj _ (by omega) _ (by omega) e8
  have hy : d.year = d'.year := by omega
  have hm : d.month = d'.month := by omega
  have hdy : d.day = d'.day := by omega
  obtain ⟨y, m, dy⟩ := d
  obtain ⟨y', m', dy'⟩ := d'
  simp only [Date.mk.injEq]
  exact ⟨hy, hm, hdy⟩

theorem get_month_key_eq_monthOfDayKey (d : Date) :
    get_month_key d = monthOfDayKey (get_today_key d) := rfl

theorem incrementN_today (now : Date) (u : UsageData) (n : Nat) :
    dictGetD (incrementN now u n).daily (get_today_key now)
      = dictGetD u.daily (get_today_key now) + n := by
  induction n with
  | zero => simp [incrementN]
  | succ n ih =>
      simp only [incrementN, increment_usage]
      rw [dictGetD_set_self, ih]
      push_cast
      ring

theorem incrementN_month (now : Date) (u : UsageData) (n : Nat) :
    dictGetD (incrementN now u n).monthly (get_month_key now)
      = dictGetD u.monthly (get_month_key now) + n := by
  induction n with
  | zero => simp [incrementN]
  | succ n ih =>
      simp only [incrementN, increment_usage]
      rw [dictGetD_set_self, ih]
      push_cast
      ring

theorem sumInMonth_set (d : Dict) (k : String) (v : Int) (M : String) :
    sumInMonth (dictSet d k v) M
      = sumInMonth d M + (if monthOfDayKey k = M then v - dictGetD d k else 0) := by
  induction d with
  | nil =>
      by_cases h : monthOfDayKey k = M <;>
        simp [dictSet, sumInMonth, dictGetD, dictGet, h]
  | cons hd tl ih =>
      obtain ⟨k₀, v₀⟩ := hd
      by_cases h₀ : k₀ = k
      · subst h₀
        by_cases h : monthOfDayKey k₀ = M <;>
          simp [dictSet, sumInMonth, dictGetD, dictGet, h] <;> ring
      · simp only [dictSet, if_neg h₀, sumInMonth, ih]
        have hg : dictGetD ((k₀, v₀) :: tl) k = dictGetD tl k := by
          simp [dictGetD, dictGet, h₀]
        rw [hg]
        ring

/-- The invariant `increment_usage` preserves: all stored counts are positive
and every monthly count is the sum of the daily counts of its month. -/
def LedgerInv (u : UsageData) : Prop :=
  (∀ kv ∈ u.daily, 1 ≤ kv.2) ∧ (∀ kv ∈ u.monthly, 1 ≤ kv.2) ∧
  ∀ M, dictGetD u.monthly M = sumInMonth u.daily M

theorem LedgerInv_init : LedgerInv usage_data_init := by
  refine ⟨?_, ?_, ?_⟩ <;> simp [usage_data_init, dictGetD, dictGet, sumInMonth]

theorem LedgerInv_increment (now : Date) (u : UsageData) (h : LedgerInv u) :
    LedgerInv (increment_usage now u).1 := by
  obtain ⟨hd, hm, hsum⟩ := h
  have hdnn := dictGetD_nonneg u.daily (get_today_key now) hd
  have hmnn := dictGetD_nonneg u.monthly (get_month_key now) hm
  refine ⟨?_, ?_, ?_⟩
  · intro kv hkv
    rcases mem_dictSet _ _ _ _ hkv with h' | h'
    · exact hd kv h'
    · rw [h']
      simp only
      omega
  · intro kv hkv
    rcases mem_dictSet _ _ _ _ hkv with h' | h'
    · exact hm kv h'
    · rw [h']
      simp only
      omega
  · intro M
    show dictGetD (dictSet u.monthly (get_month_key now)
        (dictGetD u.monthly (get_month_key now) + 1)) M
      = sumInMonth (dictSet u.daily (get_today_key now)
          (dictGetD u.daily (get_today_key now) + 1)) M
    rw [sumInMonth_set, ← get_month_key_eq_monthOfDayKey, ← hsum M]
    by_cases hM : M = get_month_key now
    · subst hM
      rw [dictGetD_set_self, if_pos rfl]
      ring
    · rw [dictGetD_set_ne _ _ _ _ hM, if_neg (Ne.symm hM)]
      ring

theorem LedgerInv_runTrace_aux (ts : List Date) (u : UsageData) (h : LedgerInv u) :
    LedgerInv (ts.foldl (fun u d => (increment_usage d u).1) u) := by
  induction ts generalizing u with
  | nil => exact h
  | cons d ts ih => exact ih _ (LedgerInv_increment d u h)

theorem LedgerInv_runTrace (ts : List Date) : LedgerInv (runTrace ts) :=
  LedgerInv_runTrace_aux ts usage_data_init LedgerInv_init

/-! ### Concrete inputs used by witnesses and the counterexample -/

def d0 : Date := ⟨2026, 1, 15⟩

def d1 : Date := ⟨2026, 1, 16⟩

def u1 : UsageData := ⟨[("2026-01-15", 2)], [("2026-01", 2)]⟩

def tr0 : List Date := [⟨2026, 1, 15⟩, ⟨2026, 1, 15⟩, ⟨2026, 1, 16⟩, ⟨2026, 2, 1⟩]

theorem stats_after_three (now : Date) :
    get_usage_stats now (incrementN now usage_data_init 3)
      = { today := 3, todayRemaining := 97, month := 3, dailyLimit := 100 } := by
  have h1 : dictGetD (incrementN now usage_data_init 3).daily (get_today_key now) = 3 := by
    rw [incrementN_today]
    simp [usage_data_init, dictGetD, dictGet]
  have h2 : dictGetD (incrementN now usage_data_init 3).monthly (get_month_key now) = 3 := by
    rw [incrementN_month]
    simp [usage_data_init, dictGetD, dictGet]
  simp [get_usage_stats, h1, h2, DAILY_LIMIT]

/-! ### Claims -/

/-- C1: starting from a ledger with no entry for the current day-key, `N`
`increment_usage` calls under that day-key make `get_usage_stats` report
`today = N`; concretely, three successful ratings calls from the empty ledger
followed by `/api/usage` yield the snapshot
(today = 3, todayRemaining = 97, month = 3, dailyLimit = 100). -/
theorem increments_accumulate_today (now : Date) (u : UsageData) (N : Nat)
    (h : dictGet u.daily (get_today_key now) = none) :
    (get_usage_stats now (incrementN now u N)).today = N
    ∧ (usage now (get_ratings "k" "2026" now (Upstream.ok "r3")
        (get_ratings "k" "2026" now (Upstream.ok "r2")
          (get_ratings "k" "2026" now (Upstream.ok "r1") usage_data_init).2.1).2.1).2.1).1
      = { body := Body.snapshot
            { today := 3, todayRemaining := 97, month := 3, dailyLimit := 100 }
          status := 200 } := by
  constructor
  · show dictGetD (incrementN now u N).daily (get_today_key now) = N
    rw [incrementN_today, dictGetD_eq_zero_of_get_none _ _ h]
    ring
  · have hkey : ("k" : String) ≠ "" := by decide
    simp only [get_ratings, if_neg hkey, usage]
    rw [show (increment_usage now (increment_usage now
          (increment_usage now usage_data_init).1).1).1
        = incrementN now usage_data_init 3 from rfl, stats_after_three]

theorem increments_accumulate_today_witness :
    (get_usage_stats d0 (incrementN d0 usage_data_init 5)).today = 5
    ∧ (usage d0 (get_ratings "k" "2026" d0 (Upstream.ok "r3")
        (get_ratings "k" "2026" d0 (Upstream.ok "r2")
          (get_ratings "k" "2026" d0 (Upstream.ok "r1") usage_data_init).2.1).2.1).2.1).1
      = { body := Body.snapshot
            { today := 3, todayRemaining := 97, month := 3, dailyLimit := 100 }
          status := 200 } :=
  increments_accumulate_today d0 usage_data_init 5 rfl

/-- C2: `get_usage_stats` reports `todayRemaining = max 0 (DAILY_LIMIT - today)`
where `today` is the count stored under the current day-key (0 when the key is
absent), for every ledger state, including states with `today > DAILY_LIMIT`. -/
theorem snapshot_todayRemaining_floor (now : Date) (u : UsageData) :
    (get_usage_stats now u).todayRemaining
        = max 0 (DAILY_LIMIT - dictGetD u.daily (get_today_key now))
    ∧ (get_usage_stats now u).today = dictGetD u.daily (get_today_key now) :=
  ⟨rfl, rfl⟩

/-- C3: one `increment_usage` call stores, under the current day-key and
month-key, one more than the previous count (so 1 when the key was absent,
since the absent key reads as 0), and returns exactly the `get_usage_stats`
snapshot of the updated state. -/
theorem increment_usage_behavior (now : Date) (u : UsageData) :
    dictGet (increment_usage now u).1.daily (get_today_key now)
        = some (dictGetD u.daily (get_today_key now) + 1)
    ∧ dictGet (increment_usage now u).1.monthly (get_month_key now)
        = some (dictGetD u.monthly (get_month_key now) + 1)
    ∧ (increment_usage now u).2 = get_usage_stats now (increment_usage now u).1 :=
  ⟨dictGet_set_self _ _ _, dictGet_set_self _ _ _, rfl⟩

/-- C4: with the credential configured, each quota-counted handler (ratings,
games, teams) applies exactly one `increment_usage` on an HTTP 200 upstream
outcome, and on a non-200 status or a raised exception returns the error
response with the ledger unchanged. -/
theorem quota_counted_increment_on_success (key season : String) (now : Date)
    (u : UsageData) (b eb m : String) (code : Nat) (hk : key ≠ "") :
    ((get_ratings key season now (Upstream.ok b) u).2.1 = (increment_usage now u).1
      ∧ (get_games key season now (Upstream.ok b) u).2.1 = (increment_usage now u).1
      ∧ (get_teams key now (Upstream.ok b) u).2.1 = (increment_usage now u).1)
    ∧ ((get_ratings key season now (Upstream.err code eb) u).1
          = { body := Body.errorObj ("API returned " ++ toString code), status := code }
      ∧ (get_ratings key season now (Upstream.err code eb) u).2.1 = u
      ∧ (get_games key season now (Upstream.err code eb) u).1
          = { body := Body.errorObj ("API returned " ++ toString code), status := code }
      ∧ (get_games key season now (Upstream.err code eb) u).2.1 = u
      ∧ (get_teams key now (Upstream.err code eb) u).1
          = { body := Body.errorObj ("API returned " ++ toString code), status := code }
      ∧ (get_teams key now (Upstream.err code eb) u).2.1 = u)
    ∧ ((get_ratings key season now (Upstream.exn m) u).1
          = { body := Body.errorObj m, status := 500 }
      ∧ (get_ratings key season now (Upstream.exn m) u).2.1 = u
      ∧ (get_games key season now (Upstream.exn m) u).1
          = { body := Body.errorObj m, status := 500 }
      ∧ (get_games key season now (Upstream.exn m) u).2.1 = u
      ∧ (get_teams key now (Upstream.exn m) u).1
          = { body := Body.errorObj m, status := 500 }
      ∧ (get_teams key now (Upstream.exn m) u).2.1 = u) := by
  simp [get_ratings, get_games, get_teams, hk]

theorem quota_counted_increment_on_success_witness :
    ((get_ratings "k" "2026" d0 (Upstream.ok "ob") u1).2.1 = (increment_usage d0 u1).1
      ∧ (get_games "k" "2026" d0 (Upstream.ok "ob") u1).2.1 = (increment_usage d0 u1).1
      ∧ (get_teams "k" d0 (Upstream.ok "ob") u1).2.1 = (increment_usage d0 u1).1)
    ∧ ((get_ratings "k" "2026" d0 (Upstream.err 404 "eb") u1).1
          = { body := Body.errorObj ("API returned " ++ toString 404), status := 404 }
      ∧ (get_ratings "k" "2026" d0 (Upstream.err 404 "eb") u1).2.1 = u1
      ∧ (get_games "k" "2026" d0 (Upstream.err 404 "eb") u1).1
          = { body := Body.errorObj ("API returned " ++ toString 404), status := 404 }
      ∧ (get_games "k" "2026" d0 (Upstream.err 404 "eb") u1).2.1 = u1
      ∧ (get_teams "k" d0 (Upstream.err 404 "eb") u1).1
          = { body := Body.errorObj ("API returned " ++ toString 404), status := 404 }
      ∧ (get_teams "k" d0 (Upstream.err 404 "eb") u1).2.1 = u1)
    ∧ ((get_ratings "k" "2026" d0 (Upstream.exn "boom") u1).1
          = { body := Body.errorObj "boom", status := 500 }
      ∧ (get_ratings "k" "2026" d0 (Upstream.exn "boom") u1).2.1 = u1
      ∧ (get_games "k" "2026" d0 (Upstream.exn "boom") u1).1
          = { body := Body.errorObj "boom", status := 500 }
      ∧ (get_games "k" "2026" d0 (Upstream.exn "boom") u1).2.1 = u1
      ∧ (get_teams "k" d0 (Upstream.exn "boom") u1).1
          = { body := Body.errorObj "boom", status := 500 }
      ∧ (get_teams "k" d0 (Upstream.exn "boom") u1).2.1 = u1) :=
  quota_counted_increment_on_success "k" "2026" d0 u1 "ob" "eb" "boom" 404 (by decide)

/-- C5 (counterexample): a teams call whose upstream returns HTTP 404 with a
parseable JSON body does NOT return that upstream body; it returns the
synthesized body (error = "API returned 404") with status 404. -/
theorem teams_404_body_counterexample :
    (get_teams "k" d0 (Upstream.err 404 "nfbody") usage_data_init).1.body
        ≠ Body.upstream "nfbody"
    ∧ (get_teams "k" d0 (Upstream.err 404 "nfbody") usage_data_init).1
        = { body := Body.errorObj "API returned 404", status := 404 } := by
  decide

/-- C5 (amended): on a non-200 upstream response every endpoint forwards the
upstream's status code, but only the odds endpoint forwards the upstream's
JSON body; the ratings, games and teams endpoints always respond with the
synthesized body (error = "API returned <code>"), even when the upstream body
is parseable JSON. -/
theorem upstream_error_body_handling (okey ckey season b : String) (code : Nat)
    (now : Date) (u : UsageData) (ho : okey ≠ "") (hc : ckey ≠ "") :
    (get_odds okey (Upstream.err code b) u).1 = { body := Body.upstream b, status := code }
    ∧ (get_ratings ckey season now (Upstream.err code b) u).1
        = { body := Body.errorObj ("API returned " ++ toString code), status := code }
    ∧ (get_games ckey season now (Upstream.err code b) u).1
        = { body := Body.errorObj ("API returned " ++ toString code), status := code }
    ∧ (get_teams ckey now (Upstream.err code b) u).1
        = { body := Body.errorObj ("API returned " ++ toString code), status := code } := by
  simp [get_odds, get_ratings, get_games, get_teams, ho, hc]

theorem upstream_error_body_handling_witness :
    (get_odds "ok" (Upstream.err 404 "nfb") u1).1 = { body := Body.upstream "nfb", status := 404 }
    ∧ (get_ratings "ck" "2026" d0 (Upstream.err 404 "nfb") u1).1
        = { body := Body.errorObj ("API returned " ++ toString 404), status := 404 }
    ∧ (get_games "ck" "2026" d0 (Upstream.err 404 "nfb") u1).1
        = { body := Body.errorObj ("API returned " ++ toString 404), status := 404 }
    ∧ (get_teams "ck" d0 (Upstream.err 404 "nfb") u1).1
        = { body := Body.errorObj ("API returned " ++ toString 404), status := 404 } :=
  upstream_error_body_handling "ok" "ck" "2026" "nfb" 404 d0 u1 (by decide) (by decide)

/-- C6: with the relevant credential unset (empty string), each handler
returns HTTP 500 with the body (error = "<KEY> not configured"), performs
zero outbound network calls, and leaves the ledger unchanged. -/
theorem missing_key_short_circuits (now : Date) (upstream : Upstream) (season : String)
    (u : UsageData) :
    get_odds "" upstream u
        = ({ body := Body.errorObj "ODDS_API_KEY not configured", status := 500 }, u, 0)
    ∧ get_ratings "" season now upstream u
        = ({ body := Body.errorObj "CBBD_API_KEY not configured", status := 500 }, u, 0)
    ∧ get_games "" season now upstream u
        = ({ body := Body.errorObj "CBBD_API_KEY not configured", status := 500 }, u, 0)
    ∧ get_teams "" now upstream u
        = ({ body := Body.errorObj "CBBD_API_KEY not configured", status := 500 }, u, 0) :=
  ⟨rfl, rfl, rfl, rfl⟩

/-- C7: `/api/odds` never touches the ledger: whatever the credential and the
upstream outcome, the ledger state after the call is the state before it, so
any snapshot of it is unchanged. -/
theorem odds_never_increments (key : String) (upstream : Upstream) (u : UsageData)
    (now : Date) :
    (get_odds key upstream u).2.1 = u
    ∧ get_usage_stats now (get_odds key upstream u).2.1 = get_usage_stats now u := by
  have h : (get_odds key upstream u).2.1 = u := by
    by_cases hk : key = ""
    · simp [get_odds, hk]
    · cases upstream <;> simp [get_odds, hk]
  exact ⟨h, by rw [h]⟩

theorem odds_never_increments_witness :
    (get_odds "ok" (Upstream.ok "b") u1).2.1 = u1
    ∧ get_usage_stats d0 (get_odds "ok" (Upstream.ok "b") u1).2.1 = get_usage_stats d0 u1 :=
  odds_never_increments "ok" (Upstream.ok "b") u1 d0

/-- C8: for distinct valid dates D and D' the day-keys differ, so after the
clock moves to D': a snapshot reports `today = 0` while no increment has
happened under D's new key; an increment under D' leaves the count stored
under D's key untouched; and when D and D' share a month-key the reported
month count is the stored cumulative month count. -/
theorem day_rollover (D D' : Date) (u : UsageData) (hD : D.Valid) (hD' : D'.Valid)
    (hne : D ≠ D') :
    get_today_key D ≠ get_today_key D'
    ∧ (dictGet u.daily (get_today_key D') = none → (get_usage_stats D' u).today = 0)
    ∧ dictGet (increment_usage D' u).1.daily (get_today_key D)
        = dictGet u.daily (get_today_key D)
    ∧ (get_month_key D = get_month_key D' →
        (get_usage_stats D' u).month = dictGetD u.monthly (get_month_key D)) := by
  have hkey : get_today_key D ≠ get_today_key D' :=
    fun h => hne (get_today_key_inj D D' hD hD' h)
  refine ⟨hkey, ?_, ?_, ?_⟩
  · intro h
    show dictGetD u.daily (get_today_key D') = 0
    exact dictGetD_eq_zero_of_get_none _ _ h
  · exact dictGet_set_ne _ _ _ _ hkey
  · intro h
    show dictGetD u.monthly (get_month_key D') = dictGetD u.monthly (get_month_key D)
    rw [h]

theorem day_rollover_witness :
    get_today_key d0 ≠ get_today_key d1
    ∧ (dictGet u1.daily (get_today_key d1) = none → (get_usage_stats d1 u1).today = 0)
    ∧ dictGet (increment_usage d1 u1).1.daily (get_today_key d0)
        = dictGet u1.daily (get_today_key d0)
    ∧ (get_month_key d0 = get_month_key d1 →
        (get_usage_stats d1 u1).month = dictGetD u1.monthly (get_month_key d0)) :=
  day_rollover d0 d1 u1 (by decide) (by decide) (by decide)

/-- C9: `get_usage_stats` has no side effect on the ledger: the `/api/usage`
handler returns the daily and monthly maps exactly as it received them, and a
second snapshot taken from the state the first one returned, under the same
clock reading, is identical. -/
theorem snapshot_idempotent_read (now : Date) (u : UsageData) :
    (usage now u).2.daily = u.daily
    ∧ (usage now u).2.monthly = u.monthly
    ∧ (usage now (usage now u).2).1 = (usage now u).1 :=
  ⟨rfl, rfl, rfl⟩

/-- C10: in every ledger state reachable from the empty ledger by
`increment_usage` calls (each call deriving its day-key and month-key from the
same clock reading), every stored count is at least 1, and the count stored
under any present month-key equals the sum of the daily counts over the
day-keys of that month. -/
theorem monthly_eq_sum_daily (ts : List Date) :
    (∀ kv ∈ (runTrace ts).daily, 1 ≤ kv.2)
    ∧ (∀ kv ∈ (runTrace ts).monthly, 1 ≤ kv.2)
    ∧ ∀ M c, dictGet (runTrace ts).monthly M = some c →
        c = sumInMonth (runTrace ts).daily M := by
  obtain ⟨h1, h2, h3⟩ := LedgerInv_runTrace ts
  refine ⟨h1, h2, ?_⟩
  intro M c hc
  have h4 := h3 M
  simp only [dictGetD, hc, Option.getD_some] at h4
  exact h4

theorem monthly_eq_sum_daily_witness :
    (1 : Int) ≤ (("2026-01-15", (2 : Int)) : String × Int).2
    ∧ (3 : Int) = sumInMonth (runTrace tr0).daily "2026-01" :=
  ⟨(monthly_eq_sum_daily tr0).1 ("2026-01-15", 2) (by decide),
   (monthly_eq_sum_daily tr0).2.2 "2026-01" 3 (by decide)⟩
